import Mathlib

/-!
# Verification of the VR analytics collector (`AnalyticsCollector`)

Shallow embedding of `src/analytics/analytics-collector.js` — the event and
metrics aggregator of the vr-analytics-platform repository.  JavaScript
numbers are modelled as rationals (`ℚ`); the one place the code calls
`Math.sqrt` (Euclidean distance inside `calculateMovementMetrics`) is
modelled over the reals (`ℝ`) with `Real.sqrt`.  Each collector method that
reads the wall clock (`performance.now()`) receives the current time `now`
as an explicit parameter; all `performance.now()` reads inside one
synchronous method call are identified, matching the single-threaded,
instantaneous-operation model of the source.  The browser `localStorage`
sink used by `persistEvent` is modelled as a `SinkState` carried in the
collector state, with a `failing` flag standing for the environment in
which any of the storage operations throws; the `try/catch` of the source
is the `match` on the `Except` result.
-/

/-- JavaScript `Math.round`: round half toward positive infinity,
`Math.round x = ⌊x + 1/2⌋`. -/
def jsRound (x : ℚ) : ℤ := ⌊x + 1/2⌋

/-- `Math.round (x * 10) / 10` — rounding to 1 decimal, used on fps. -/
def round1 (x : ℚ) : ℚ := (jsRound (x * 10) : ℚ) / 10

/-- `Math.round (x * 100) / 100` — rounding to 2 decimals, used on render time. -/
def round2 (x : ℚ) : ℚ := (jsRound (x * 100) : ℚ) / 100

/-- `Math.round (x * 1000) / 1000` — rounding to 3 decimals, used on coordinates. -/
def round3 (x : ℚ) : ℚ := (jsRound (x * 1000) : ℚ) / 1000

/-- `Math.round` over the reals, for the movement-metric outputs. -/
noncomputable def jsRoundR (x : ℝ) : ℤ := ⌊x + 1/2⌋

/-- 3-decimal rounding over the reals (`Math.round (x*1000)/1000`). -/
noncomputable def round3R (x : ℝ) : ℝ := (jsRoundR (x * 1000) : ℝ) / 1000

/-- JavaScript truthiness of an optional number: `undefined` and `0` are
falsy, every other number is truthy. -/
def qTruthy : Option ℚ → Bool
  | none => false
  | some x => x != 0

/-- JavaScript `x || y` for an optional number `x`: yields `y` when `x` is
`undefined` or `0`. -/
def jsOrElse (x : Option ℚ) (y : ℚ) : ℚ :=
  match x with
  | none => y
  | some t => if t == 0 then y else t

/-- `Array.prototype.slice(-n)`: the last `n` elements (all of them when the
array is shorter). -/
def lastN (n : ℕ) (l : List α) : List α := l.drop (l.length - n)

/-- A 3-component vector (`{x, y, z}` object of the source). -/
structure Vec3 where
  x : ℚ
  y : ℚ
  z : ℚ
deriving DecidableEq, Repr

/-- Componentwise 3-decimal rounding applied by `logSpatialData`. -/
def roundVec (v : Vec3) : Vec3 := ⟨round3 v.x, round3 v.y, round3 v.z⟩

/-- One entry of `this.spatialData` (built in `logSpatialData`). -/
structure SpatialSample where
  objectType : String
  position : Vec3
  rotation : Vec3
  scale : Option Vec3
  timestamp : ℚ
deriving DecidableEq, Repr

/-- One entry of `this.performanceMetrics` (built in `logPerformance`). -/
structure PerformanceSample where
  fps : ℚ
  renderTime : ℚ
  memoryUsage : Option ℚ
  timestamp : ℚ
  isVRMode : Bool
deriving DecidableEq, Repr

/-- One entry of `this.userInteractions` (built in `logInteraction`). -/
structure Interaction where
  type : String
  target : String
  position : Option Vec3
  duration : Option ℚ
  force : Option ℚ
  timestamp : ℚ
  vrMode : Bool
deriving DecidableEq, Repr

/-- The record returned by `calculateMovementMetrics` (reported fields are
3-decimal rounded; the intensity classification uses the raw peak
velocity). -/
structure MovementMetrics where
  totalDistance : ℝ
  averageVelocity : ℝ
  maxVelocity : ℝ
  movementIntensity : String

/-- The type-specific payload of an event (`...data` of `logEvent`).  The
`external` constructor stands for an opaque caller-supplied field map that
contains none of the keys (`newMode`, `transitionTime`, `current`) read by
the real-time processors. -/
inductive EventData where
  | external (fields : List (String × String))
  | interaction (i : Interaction)
  | spatialTracking (recentMovements : List SpatialSample)
      (movementMetrics : Option MovementMetrics)
  | performanceMetrics (current : PerformanceSample) (avgFps : ℚ)
      (avgRenderTime : ℚ) (trend : String)
  | vrModeChange (previousMode : Bool) (newMode : Bool) (transitionTime : ℚ)
  | rapidInteraction (averageInterval : ℚ) (interactionCount : ℕ)
  | performanceWarning (warningType : String) (value : ℚ) (severity : String)
  | vrExperienceStart (timeToVR : Option ℚ) (platform : String)
  | vrExperienceEnd (vrDuration : ℚ) (totalSessionTime : Option ℚ)

/-- An entry of `this.events` as constructed by `logEvent`. -/
structure Event where
  sessionId : String
  eventType : String
  timestamp : ℚ
  relativeTime : ℚ
  isVRMode : Bool
  data : EventData

/-- `this.sessionData.interactionMetrics` (created lazily by
`updateInteractionMetrics`). -/
structure InteractionMetrics where
  totalInteractions : ℕ
  interactionTypes : List (String × ℕ)
  averageTimeBetweenInteractions : ℚ
  lastInteractionTime : Option ℚ

/-- The `localStorage`-backed durable sink of `persistEvent`, plus a flag
describing an environment in which the storage operations throw. -/
structure SinkState where
  stored : List Event
  failing : Bool

/-- The state of one `AnalyticsCollector` instance.  `platform`,
`sessionId` and `startTime` are fixed at construction; the remaining
fields are the mutable instance fields of the class.  The out-of-scope
`deviceInfo` probe is not modelled (no claim mentions it). -/
structure AnalyticsCollector where
  sessionId : String
  startTime : ℚ
  platform : String
  isVRMode : Bool
  events : List Event
  userInteractions : List Interaction
  performanceMetrics : List PerformanceSample
  spatialData : List SpatialSample
  vrCapable : Bool
  vrSessionStart : Option ℚ
  interactionMetrics : Option InteractionMetrics
  sink : SinkState

namespace AnalyticsCollector

/-- The state right after the constructor ran: empty buffers, VR mode off,
no VR-start stamp, no interaction metrics.  (The constructor only fills
the static session facts and registers an animation callback; it appends
no event.) -/
def initialState (sid : String) (t0 : ℚ) (platform : String) :
    AnalyticsCollector :=
  { sessionId := sid
    startTime := t0
    platform := platform
    isVRMode := false
    events := []
    userInteractions := []
    performanceMetrics := []
    spatialData := []
    vrCapable := false
    vrSessionStart := none
    interactionMetrics := none
    sink := ⟨[], false⟩ }

/-- A concrete fresh collector used in concrete evaluations. -/
def initState : AnalyticsCollector := initialState "vr_session" 0 "Unknown"

/-- The event record built at the top of `logEvent`. -/
def mkEvent (st : AnalyticsCollector) (now : ℚ) (eventType : String)
    (data : EventData) : Event :=
  { sessionId := st.sessionId
    eventType := eventType
    timestamp := now
    relativeTime := now - st.startTime
    isVRMode := st.isVRMode
    data := data }

/-- `isImportantEvent`: the fixed allow-list of event types that are
forwarded to the durable sink. -/
def isImportantEvent (eventType : String) : Bool :=
  ["session_start", "session_end", "vr_mode_change",
   "performance_warning", "error", "task_completion"].contains eventType

/-- The body of `persistEvent` without its `try/catch`: parse the stored
array, push the event, keep the last 1000 entries, write back.  In a
failing environment any of these storage operations throws. -/
def persistEventExcept (sink : SinkState) (e : Event) :
    Except String SinkState :=
  if sink.failing then .error "storage operation failed"
  else
    let events := sink.stored ++ [e]
    let events :=
      if events.length > 1000 then lastN 1000 events else events
    .ok { sink with stored := events }

/-- The effect of `persistEvent` on the sink, with its `try/catch`: a
storage error is swallowed (`console.warn`) and leaves the sink — and a
fortiori the collector — unchanged. -/
def persistSink (sink : SinkState) (e : Event) : SinkState :=
  match persistEventExcept sink e with
  | .ok s => s
  | .error _ => sink

/-- `persistEvent`: it touches nothing of the collector besides the sink. -/
def persistEvent (st : AnalyticsCollector) (e : Event) : AnalyticsCollector :=
  { st with sink := persistSink st.sink e }

/-- `logEvent` for event types that have no case in the
`processEventRealTime` dispatch (every event type emitted from inside the
real-time processors is such a type, so the nested `logEvent` calls of the
source are embedded with this function): construct the event, append it to
the log, persist it when important, return it. -/
def logEventPlain (st : AnalyticsCollector) (now : ℚ) (eventType : String)
    (data : EventData) : AnalyticsCollector × Event :=
  let e := mkEvent st now eventType data
  let st := { st with events := st.events ++ [e] }
  let st := if isImportantEvent eventType then persistEvent st e else st
  (st, e)

/-- Sum of consecutive timestamp gaps, i.e. the `reduce` of
`processInteractionEvent` (the `i === 0` iteration contributes nothing). -/
def consecutiveGapSum : List Interaction → ℚ
  | a :: b :: rest => (b.timestamp - a.timestamp) + consecutiveGapSum (b :: rest)
  | _ => 0

/-- `processInteractionEvent`: inspect the last 5 recorded interactions;
with at least 3, compare the mean consecutive gap against 500 ms and emit
a `rapid_interaction_detected` event when below. -/
def processInteractionEvent (st : AnalyticsCollector) (now : ℚ) :
    AnalyticsCollector :=
  let recentInteractions := lastN 5 st.userInteractions
  if recentInteractions.length ≥ 3 then
    let avgTimeBetween :=
      consecutiveGapSum recentInteractions /
        ((recentInteractions.length : ℚ) - 1)
    if avgTimeBetween < 500 then
      (logEventPlain st now "rapid_interaction_detected"
        (.rapidInteraction avgTimeBetween recentInteractions.length)).1
    else st
  else st

/-- `processPerformanceEvent`: on a `performance_metrics` event, emit up to
two independent `performance_warning` events (low fps, high render time).
An event whose payload carries no `current` field does nothing
(`event.current` is `undefined`, hence falsy). -/
def processPerformanceEvent (st : AnalyticsCollector) (now : ℚ)
    (data : EventData) : AnalyticsCollector :=
  match data with
  | .performanceMetrics current _ _ _ =>
    let st :=
      if current.fps < 30 then
        (logEventPlain st now "performance_warning"
          (.performanceWarning "low_fps" current.fps
            (if current.fps < 15 then "critical" else "warning"))).1
      else st
    if current.renderTime > 16.67 then
      (logEventPlain st now "performance_warning"
        (.performanceWarning "high_render_time" current.renderTime
          (if current.renderTime > 33.33 then "critical" else "warning"))).1
    else st
  | _ => st

/-- `event.newMode` as read by `processVRModeChange`: present only on a
`vr_mode_change` payload, otherwise `undefined` (falsy). -/
def dataNewMode : EventData → Bool
  | .vrModeChange _ newMode _ => newMode
  | _ => false

/-- `event.transitionTime` as read by `processVRModeChange`. -/
def dataTransitionTime : EventData → Option ℚ
  | .vrModeChange _ _ t => some t
  | _ => none

/-- `processVRModeChange`: on entering VR emit `vr_experience_start`, on
leaving emit `vr_experience_end` with duration measured from the stored
VR-start time (falling back to the session start when unset or 0). -/
def processVRModeChange (st : AnalyticsCollector) (now : ℚ)
    (data : EventData) : AnalyticsCollector :=
  if dataNewMode data then
    (logEventPlain st now "vr_experience_start"
      (.vrExperienceStart (dataTransitionTime data) st.platform)).1
  else
    let vrDuration := now - jsOrElse st.vrSessionStart st.startTime
    (logEventPlain st now "vr_experience_end"
      (.vrExperienceEnd vrDuration (dataTransitionTime data))).1

/-- `processEventRealTime`: the dispatch on the event type. -/
def processEventRealTime (st : AnalyticsCollector) (now : ℚ) (e : Event) :
    AnalyticsCollector :=
  if e.eventType == "user_interaction" then processInteractionEvent st now
  else if e.eventType == "performance_metrics" then
    processPerformanceEvent st now e.data
  else if e.eventType == "vr_mode_change" then
    processVRModeChange st now e.data
  else st

/-- `logEvent`: construct the event, append it, run the real-time
dispatch, persist it when important, and return it.  (The event types
emitted from inside the dispatch have no dispatch case of their own, so
their nested `logEvent` calls are `logEventPlain`.) -/
def logEvent (st : AnalyticsCollector) (now : ℚ) (eventType : String)
    (data : EventData) : AnalyticsCollector × Event :=
  let e := mkEvent st now eventType data
  let st := { st with events := st.events ++ [e] }
  let st := processEventRealTime st now e
  let st := if isImportantEvent eventType then persistEvent st e else st
  (st, e)

/-- `updateInteractionMetrics`: create the metrics record on first use,
then bump the total, the per-type counter, and the running mean of
inter-interaction gaps (skipped when the stored last time is falsy). -/
def updateInteractionMetrics (st : AnalyticsCollector) (i : Interaction) :
    AnalyticsCollector :=
  let metrics := st.interactionMetrics.getD
    { totalInteractions := 0
      interactionTypes := []
      averageTimeBetweenInteractions := 0
      lastInteractionTime := none }
  let metrics := { metrics with totalInteractions := metrics.totalInteractions + 1 }
  let counts :=
    if metrics.interactionTypes.any (fun p => p.1 == i.type) then
      metrics.interactionTypes.map
        (fun p => if p.1 == i.type then (p.1, p.2 + 1) else p)
    else metrics.interactionTypes ++ [(i.type, 1)]
  let metrics := { metrics with interactionTypes := counts }
  let metrics :=
    if qTruthy metrics.lastInteractionTime then
      let timeSinceLast := i.timestamp - (metrics.lastInteractionTime.getD 0)
      { metrics with averageTimeBetweenInteractions :=
          (metrics.averageTimeBetweenInteractions *
            ((metrics.totalInteractions : ℚ) - 1) + timeSinceLast) /
            (metrics.totalInteractions : ℚ) }
    else metrics
  let metrics := { metrics with lastInteractionTime := some i.timestamp }
  { st with interactionMetrics := some metrics }

/-- `logInteraction`: build the interaction record, log it as a
`user_interaction` event (which runs the real-time pattern detection),
then push it onto the interaction list and update the running metrics. -/
def logInteraction (st : AnalyticsCollector) (now : ℚ)
    (interactionType : String) (target : String) (position : Option Vec3)
    (duration : Option ℚ) (force : Option ℚ) :
    AnalyticsCollector × Interaction :=
  let interaction : Interaction :=
    { type := interactionType
      target := target
      position := position
      duration := duration
      force := force
      timestamp := now
      vrMode := st.isVRMode }
  let st := (logEvent st now "user_interaction" (.interaction interaction)).1
  let st := { st with userInteractions := st.userInteractions ++ [interaction] }
  let st := updateInteractionMetrics st interaction
  (st, interaction)

/-- Mean fps over the last 300 performance samples, rounded to 1 decimal;
0 with no samples (`calculateAverageFPS`). -/
def calculateAverageFPS (st : AnalyticsCollector) : ℚ :=
  if st.performanceMetrics.length = 0 then 0
  else
    let recent := lastN 300 st.performanceMetrics
    round1 ((recent.map PerformanceSample.fps).sum / (recent.length : ℚ))

/-- Mean render time over the last 300 samples, rounded to 2 decimals
(`calculateAverageRenderTime`). -/
def calculateAverageRenderTime (st : AnalyticsCollector) : ℚ :=
  if st.performanceMetrics.length = 0 then 0
  else
    let recent := lastN 300 st.performanceMetrics
    round2 ((recent.map PerformanceSample.renderTime).sum / (recent.length : ℚ))

/-- `getPerformanceTrend`: below 120 samples report `insufficient_data`;
otherwise compare the mean fps of the last 60 samples (`slice(-60)`)
against the preceding 60 (`slice(-120, -60)`) and classify the percentage
change against ±5. -/
def getPerformanceTrend (st : AnalyticsCollector) : String :=
  if st.performanceMetrics.length < 120 then "insufficient_data"
  else
    let recent := lastN 60 st.performanceMetrics
    let older := (lastN 120 st.performanceMetrics).take 60
    let recentAvg := (recent.map PerformanceSample.fps).sum / (recent.length : ℚ)
    let olderAvg := (older.map PerformanceSample.fps).sum / (older.length : ℚ)
    let change := ((recentAvg - olderAvg) / olderAvg) * 100
    if change > 5 then "improving"
    else if change < -5 then "degrading"
    else "stable"

/-- Euclidean distance between two stored positions
(`Math.sqrt(Δx² + Δy² + Δz²)`). -/
noncomputable def dist3 (a b : Vec3) : ℝ :=
  Real.sqrt (((b.x - a.x : ℚ) : ℝ) ^ 2 + ((b.y - a.y : ℚ) : ℝ) ^ 2 +
    ((b.z - a.z : ℚ) : ℝ) ^ 2)

/-- The loop of `calculateMovementMetrics`: accumulate the total distance
and the maximum per-step velocity (distance over the time delta in
seconds, floored at 1 ms) over consecutive sample pairs. -/
noncomputable def movementAgg : List SpatialSample → ℝ × ℝ
  | a :: b :: rest =>
    let distance := dist3 a.position b.position
    let timeDelta := ((b.timestamp - a.timestamp : ℚ) : ℝ) / 1000
    let velocity := distance / max timeDelta (1 / 1000)
    let tail := movementAgg (b :: rest)
    (distance + tail.1, max velocity tail.2)
  | _ => (0, 0)

/-- `classifyMovementIntensity`: bucket a peak velocity. -/
noncomputable def classifyMovementIntensity (velocity : ℝ) : String :=
  if velocity < 0.1 then "stationary"
  else if velocity < 0.5 then "slow"
  else if velocity < 1.0 then "moderate"
  else if velocity < 2.0 then "active"
  else "rapid"

/-- `calculateMovementMetrics`: `null` below 2 spatial samples, otherwise
total distance, mean velocity (total distance over step count), and peak
velocity over the last 30 samples, each reported 3-decimal rounded, with
the intensity classified from the raw peak velocity. -/
noncomputable def calculateMovementMetrics (st : AnalyticsCollector) :
    Option MovementMetrics :=
  if st.spatialData.length < 2 then none
  else
    let recent := lastN 30 st.spatialData
    let agg := movementAgg recent
    some
      { totalDistance := round3R agg.1
        averageVelocity := round3R (agg.1 / ((recent.length : ℝ) - 1))
        maxVelocity := round3R agg.2
        movementIntensity := classifyMovementIntensity agg.2 }

/-- `logSpatialData`: round the sample to 3 decimals and push it; every
time the buffer length is divisible by 30 emit a `spatial_tracking` event
carrying the last 30 samples and the movement metrics; then truncate the
buffer to its most recent 1800 entries when it exceeds that bound. -/
noncomputable def logSpatialData (st : AnalyticsCollector) (now : ℚ)
    (position : Vec3) (rotation : Vec3) (scale : Option Vec3)
    (objectType : String) : AnalyticsCollector :=
  let spatialEvent : SpatialSample :=
    { objectType := objectType
      position := roundVec position
      rotation := roundVec rotation
      scale := scale.map roundVec
      timestamp := now }
  let st := { st with spatialData := st.spatialData ++ [spatialEvent] }
  let st :=
    if st.spatialData.length % 30 = 0 then
      (logEvent st now "spatial_tracking"
        (.spatialTracking (lastN 30 st.spatialData)
          (calculateMovementMetrics st))).1
    else st
  if st.spatialData.length > 1800 then
    { st with spatialData := lastN 1800 st.spatialData }
  else st

/-- `logPerformance`: round fps to 1 decimal and render time to 2 and push
the sample; every time the buffer length is divisible by 300 emit a
`performance_metrics` event with the current sample, the rolling averages
and the trend; then truncate the buffer to its most recent 1800 entries
when it exceeds that bound. -/
def logPerformance (st : AnalyticsCollector) (now : ℚ) (fps : ℚ)
    (renderTime : ℚ) (memoryUsage : Option ℚ) : AnalyticsCollector :=
  let performanceData : PerformanceSample :=
    { fps := round1 fps
      renderTime := round2 renderTime
      memoryUsage := memoryUsage
      timestamp := now
      isVRMode := st.isVRMode }
  let st := { st with performanceMetrics := st.performanceMetrics ++ [performanceData] }
  let st :=
    if st.performanceMetrics.length % 300 = 0 then
      (logEvent st now "performance_metrics"
        (.performanceMetrics performanceData (calculateAverageFPS st)
          (calculateAverageRenderTime st) (getPerformanceTrend st))).1
    else st
  if st.performanceMetrics.length > 1800 then
    { st with performanceMetrics := lastN 1800 st.performanceMetrics }
  else st

/-- `setVRMode`: flip the mode flag, log a `vr_mode_change` event (whose
real-time processing emits the experience start/end event), mark the
session VR-capable, and stamp the VR-start time when entering VR with a
falsy stored stamp. -/
def setVRMode (st : AnalyticsCollector) (now : ℚ) (isVR : Bool) :
    AnalyticsCollector :=
  let previousMode := st.isVRMode
  let st := { st with isVRMode := isVR }
  let st := (logEvent st now "vr_mode_change"
    (.vrModeChange previousMode isVR (now - st.startTime))).1
  let st := { st with vrCapable := true }
  if isVR && !(qTruthy st.vrSessionStart) then
    { st with vrSessionStart := some now }
  else st

/-- `[...new Set(xs)]`: first occurrences in order. -/
def jsSetDedup : List String → List String
  | [] => []
  | a :: rest => a :: jsSetDedup (rest.filter (fun b => ¬ (b == a)))
  termination_by l => l.length
  decreasing_by
    exact Nat.lt_succ_of_le (List.length_filter_le _ _)

/-- The record returned by `getSessionSummary` (the nested
`performanceMetrics` sub-summary is flattened into the last three
fields). -/
structure Summary where
  sessionId : String
  duration : ℚ
  totalEvents : ℕ
  totalInteractions : ℕ
  averageFPS : ℚ
  vrModeUsed : Bool
  interactionTypes : List String
  performanceTrend : String
  movementMetrics : Option MovementMetrics
  averageRenderTime : ℚ
  performanceWarnings : ℕ

/-- `getSessionSummary`. -/
noncomputable def getSessionSummary (st : AnalyticsCollector) (now : ℚ) :
    Summary :=
  { sessionId := st.sessionId
    duration := now - st.startTime
    totalEvents := st.events.length
    totalInteractions := st.userInteractions.length
    averageFPS := calculateAverageFPS st
    vrModeUsed := st.events.any (fun e => e.eventType == "vr_session_start")
    interactionTypes := jsSetDedup (st.userInteractions.map Interaction.type)
    performanceTrend := getPerformanceTrend st
    movementMetrics := calculateMovementMetrics st
    averageRenderTime := calculateAverageRenderTime st
    performanceWarnings :=
      (st.events.filter (fun e => e.eventType == "performance_warning")).length }

/-- `calculateEngagementScore`: the weighted sum of the duration,
interaction, VR-usage and performance components, rounded. -/
noncomputable def calculateEngagementScore (st : AnalyticsCollector)
    (now : ℚ) : ℤ :=
  let summary := getSessionSummary st now
  let duration := summary.duration / 1000
  let durationScore := min (duration / 300) 1 * 30
  let interactionScore := min ((summary.totalInteractions : ℚ) / 50) 1 * 30
  let vrScore : ℚ := if summary.vrModeUsed then 25 else 0
  let performanceScore : ℚ :=
    if summary.averageFPS > 45 then 15
    else if summary.averageFPS > 30 then 10 else 5
  jsRound (durationScore + interactionScore + vrScore + performanceScore)

/-! ## Closed forms of the real-time dispatch

The following definitions restate, as explicit event lists, what each
real-time processor appends; lemmas below prove them equal to the
operational definitions.  They exist so that proofs can reason about the
event log by rewriting instead of unfolding nested function calls. -/

/-- The events appended by `processInteractionEvent`. -/
def rapidList (st : AnalyticsCollector) (now : ℚ) : List Event :=
  let recentInteractions := lastN 5 st.userInteractions
  if recentInteractions.length ≥ 3 then
    let avgTimeBetween :=
      consecutiveGapSum recentInteractions /
        ((recentInteractions.length : ℚ) - 1)
    if avgTimeBetween < 500 then
      [mkEvent st now "rapid_interaction_detected"
        (.rapidInteraction avgTimeBetween recentInteractions.length)]
    else []
  else []

/-- The events appended by `processPerformanceEvent`. -/
def warningList (st : AnalyticsCollector) (now : ℚ) : EventData → List Event
  | .performanceMetrics current _ _ _ =>
    (if current.fps < 30 then
      [mkEvent st now "performance_warning"
        (.performanceWarning "low_fps" current.fps
          (if current.fps < 15 then "critical" else "warning"))]
     else []) ++
    (if current.renderTime > 16.67 then
      [mkEvent st now "performance_warning"
        (.performanceWarning "high_render_time" current.renderTime
          (if current.renderTime > 33.33 then "critical" else "warning"))]
     else [])
  | _ => []

/-- The event appended by `processVRModeChange`. -/
def vrModeList (st : AnalyticsCollector) (now : ℚ) (data : EventData) :
    List Event :=
  if dataNewMode data then
    [mkEvent st now "vr_experience_start"
      (.vrExperienceStart (dataTransitionTime data) st.platform)]
  else
    [mkEvent st now "vr_experience_end"
      (.vrExperienceEnd (now - jsOrElse st.vrSessionStart st.startTime)
        (dataTransitionTime data))]

/-- The events appended by `processEventRealTime` for an event of type `t`
with payload `data`. -/
def dispatchList (st : AnalyticsCollector) (now : ℚ) (t : String)
    (data : EventData) : List Event :=
  if t == "user_interaction" then rapidList st now
  else if t == "performance_metrics" then warningList st now data
  else if t == "vr_mode_change" then vrModeList st now data
  else []

/-- The sink after `processEventRealTime` (only the `performance_warning`
events emitted on a `performance_metrics` dispatch are important and hence
persisted). -/
def dispatchSink (st : AnalyticsCollector) (now : ℚ) (t : String)
    (data : EventData) : SinkState :=
  if t == "performance_metrics" then
    (warningList st now data).foldl persistSink st.sink
  else st.sink

/-! ## Call sequences -/

/-- The arguments of one `logSpatialData` call. -/
structure SpatialInput where
  now : ℚ
  position : Vec3
  rotation : Vec3
  scale : Option Vec3
  objectType : String

/-- The spatial sample that a `logSpatialData` call with these arguments
inserts. -/
def mkSpatialSample (inp : SpatialInput) : SpatialSample :=
  { objectType := inp.objectType
    position := roundVec inp.position
    rotation := roundVec inp.rotation
    scale := inp.scale.map roundVec
    timestamp := inp.now }

/-- Run a sequence of `logSpatialData` calls. -/
noncomputable def runSpatial (st : AnalyticsCollector)
    (inputs : List SpatialInput) : AnalyticsCollector :=
  inputs.foldl
    (fun s i => logSpatialData s i.now i.position i.rotation i.scale i.objectType)
    st

/-- The arguments of one `logPerformance` call. -/
structure PerfInput where
  now : ℚ
  fps : ℚ
  renderTime : ℚ
  memoryUsage : Option ℚ

/-- The performance sample that a `logPerformance` call with these
arguments inserts on a collector whose VR flag is off. -/
def mkPerfSample (inp : PerfInput) : PerformanceSample :=
  { fps := round1 inp.fps
    renderTime := round2 inp.renderTime
    memoryUsage := inp.memoryUsage
    timestamp := inp.now
    isVRMode := false }

/-- Run a sequence of `logPerformance` calls. -/
def runPerf (st : AnalyticsCollector) (inputs : List PerfInput) :
    AnalyticsCollector :=
  inputs.foldl (fun s i => logPerformance s i.now i.fps i.renderTime i.memoryUsage) st

/-- One public mutating call of the collector (the four operations named
by the spec's reactive-processing claims). -/
inductive Op where
  | interaction (now : ℚ) (interactionType : String) (target : String)
      (position : Option Vec3) (duration : Option ℚ) (force : Option ℚ)
  | spatial (now : ℚ) (position : Vec3) (rotation : Vec3)
      (scale : Option Vec3) (objectType : String)
  | perf (now : ℚ) (fps : ℚ) (renderTime : ℚ) (memoryUsage : Option ℚ)
  | vrMode (now : ℚ) (isVR : Bool)

/-- Apply one public call. -/
noncomputable def applyOp (st : AnalyticsCollector) : Op → AnalyticsCollector
  | .interaction now t tg p d f => (logInteraction st now t tg p d f).1
  | .spatial now p r sc o => logSpatialData st now p r sc o
  | .perf now f r m => logPerformance st now f r m
  | .vrMode now b => setVRMode st now b

/-- Apply a sequence of public calls. -/
noncomputable def runOps (st : AnalyticsCollector) (ops : List Op) :
    AnalyticsCollector :=
  ops.foldl applyOp st

/-- Number of events of a given type in a log. -/
def countType (l : List Event) (t : String) : ℕ :=
  (l.filter (fun e => e.eventType == t)).length

/-! ## Concrete states used by the spec's worked examples -/

/-- A performance sample with a given fps (render time 0, logged at time 0
outside VR). -/
def perfSampleAt (fps : ℚ) : PerformanceSample :=
  { fps := fps, renderTime := 0, memoryUsage := none, timestamp := 0
    isVRMode := false }

/-- 60 samples at fps 50 followed by 60 samples at fps 56. -/
def stTrendUp : AnalyticsCollector :=
  { initState with performanceMetrics :=
      List.replicate 60 (perfSampleAt 50) ++ List.replicate 60 (perfSampleAt 56) }

/-- 60 samples at fps 56 followed by 60 samples at fps 50. -/
def stTrendDown : AnalyticsCollector :=
  { initState with performanceMetrics :=
      List.replicate 60 (perfSampleAt 56) ++ List.replicate 60 (perfSampleAt 50) }

/-- A spatial sample at a given x-coordinate and timestamp. -/
def spatialAt (x : ℚ) (ts : ℚ) : SpatialSample :=
  { objectType := "user", position := ⟨x, 0, 0⟩, rotation := ⟨0, 0, 0⟩
    scale := none, timestamp := ts }

/-- Two spatial samples 1 meter apart, 1 second apart. -/
def stTwoSamples : AnalyticsCollector :=
  { initState with spatialData := [spatialAt 0 0, spatialAt 1 1000] }

/-- A fixed `logSpatialData` argument tuple used as a concrete input. -/
def sInp0 : SpatialInput :=
  { now := 0, position := ⟨0, 0, 0⟩, rotation := ⟨0, 0, 0⟩, scale := none
    objectType := "user" }

/-- A sequence of `logInteraction` calls with the given timestamps (the
interaction type and target are irrelevant to the pattern detection). -/
def runInteractions (st : AnalyticsCollector) (ts : List ℚ) :
    AnalyticsCollector :=
  ts.foldl (fun s t => (logInteraction s t "click" "object" none none none).1) st

/-- A collector whose VR-start timestamp is already stamped (nonzero). -/
def stVrStamped : AnalyticsCollector := { initState with vrSessionStart := some 7 }

/-- A maximally engaged session: a `vr_session_start` event was logged, 50
interactions happened, and the one performance sample has fps 60. -/
def stEngaged : AnalyticsCollector :=
  { initState with
    events := [{ sessionId := "vr_session", eventType := "vr_session_start"
                 timestamp := 0, relativeTime := 0, isVRMode := false
                 data := .external [] }]
    userInteractions := List.replicate 50
      { type := "click", target := "a", position := none, duration := none
        force := none, timestamp := 0, vrMode := false }
    performanceMetrics := [perfSampleAt 60] }

end AnalyticsCollector

/-! ## Library lemmas about `lastN` -/

theorem lastN_of_length_le {l : List α} (h : l.length ≤ n) : lastN n l = l := by
  unfold lastN
  rw [Nat.sub_eq_zero_of_le h, List.drop_zero]

theorem length_lastN (n : ℕ) (l : List α) :
    (lastN n l).length = min n l.length := by
  simp only [lastN, List.length_drop]
  omega

theorem lastN_append_one (h : 1 ≤ n) (l : List α) (x : α) :
    lastN n (l ++ [x]) = lastN (n - 1) l ++ [x] := by
  unfold lastN
  have hle : (l ++ [x]).length - n ≤ l.length := by
    simp only [List.length_append, List.length_cons, List.length_nil]
    omega
  rw [List.drop_append_of_le_length hle]
  have h2 : (l ++ [x]).length - n = l.length - (n - 1) := by
    simp only [List.length_append, List.length_cons, List.length_nil]
    omega
  rw [h2]

theorem lastN_lastN (m n : ℕ) (l : List α) :
    lastN m (lastN n l) = lastN (min m n) l := by
  simp only [lastN, List.drop_drop, List.length_drop]
  congr 1
  omega

theorem lastN_append_one_lastN (h : 1 ≤ n) (l : List α) (x : α) :
    lastN n (lastN n l ++ [x]) = lastN n (l ++ [x]) := by
  rw [lastN_append_one h, lastN_append_one h, lastN_lastN,
    Nat.min_eq_left (Nat.sub_le n 1)]

namespace AnalyticsCollector

/-! ## Closed-form lemmas for `logEvent` and the dispatch -/

theorem important_rapid :
    isImportantEvent "rapid_interaction_detected" = false := by decide

theorem important_warning :
    isImportantEvent "performance_warning" = true := by decide

theorem important_vrStart :
    isImportantEvent "vr_experience_start" = false := by decide

theorem important_vrEnd :
    isImportantEvent "vr_experience_end" = false := by decide

theorem processInteractionEvent_eq (st : AnalyticsCollector) (now : ℚ) :
    processInteractionEvent st now =
      { st with events := st.events ++ rapidList st now } := by
  by_cases h1 : (lastN 5 st.userInteractions).length ≥ 3
  · by_cases h2 : consecutiveGapSum (lastN 5 st.userInteractions) /
        (((lastN 5 st.userInteractions).length : ℚ) - 1) < 500
    · simp [processInteractionEvent, rapidList, h1, h2, logEventPlain,
        important_rapid]
    · simp [processInteractionEvent, rapidList, h1, h2]
  · simp [processInteractionEvent, rapidList, h1]

theorem processPerformanceEvent_eq (st : AnalyticsCollector) (now : ℚ)
    (data : EventData) :
    processPerformanceEvent st now data =
      { st with events := st.events ++ warningList st now data,
                sink := (warningList st now data).foldl persistSink st.sink } := by
  cases data with
  | performanceMetrics current avgFps avgRenderTime trend =>
    by_cases h1 : current.fps < 30 <;> by_cases h2 : current.renderTime > 16.67 <;>
      simp [processPerformanceEvent, warningList, logEventPlain,
        important_warning, persistEvent, h1, h2, mkEvent]
  | external fields => simp [processPerformanceEvent, warningList]
  | interaction i => simp [processPerformanceEvent, warningList]
  | spatialTracking r m => simp [processPerformanceEvent, warningList]
  | vrModeChange p n t => simp [processPerformanceEvent, warningList]
  | rapidInteraction a c => simp [processPerformanceEvent, warningList]
  | performanceWarning w v s => simp [processPerformanceEvent, warningList]
  | vrExperienceStart t p => simp [processPerformanceEvent, warningList]
  | vrExperienceEnd d t => simp [processPerformanceEvent, warningList]

theorem processVRModeChange_eq (st : AnalyticsCollector) (now : ℚ)
    (data : EventData) :
    processVRModeChange st now data =
      { st with events := st.events ++ vrModeList st now data } := by
  by_cases h : dataNewMode data = true
  · simp [processVRModeChange, vrModeList, h, logEventPlain, important_vrStart]
  · simp [processVRModeChange, vrModeList, h, logEventPlain, important_vrEnd]

theorem processEventRealTime_eq (st : AnalyticsCollector) (now : ℚ)
    (e : Event) :
    processEventRealTime st now e =
      { st with events := st.events ++ dispatchList st now e.eventType e.data,
                sink := dispatchSink st now e.eventType e.data } := by
  by_cases h1 : e.eventType = "user_interaction"
  · simp [processEventRealTime, dispatchList, dispatchSink, h1,
      processInteractionEvent_eq]
  · by_cases h2 : e.eventType = "performance_metrics"
    · simp [processEventRealTime, dispatchList, dispatchSink, h1, h2,
        processPerformanceEvent_eq]
    · by_cases h3 : e.eventType = "vr_mode_change"
      · simp [processEventRealTime, dispatchList, dispatchSink, h1, h2, h3,
          processVRModeChange_eq]
      · simp [processEventRealTime, dispatchList, dispatchSink, h1, h2, h3]

/-- The closed form of `logEvent`: the constructed event is appended,
followed by whatever the real-time dispatch emits; the sink sees the
dispatch persists and then, for important types, the event itself. -/
theorem logEvent_eq (st : AnalyticsCollector) (now : ℚ) (t : String)
    (d : EventData) :
    logEvent st now t d =
      ({ st with
          events := st.events ++ [mkEvent st now t d] ++ dispatchList st now t d,
          sink :=
            if isImportantEvent t then
              persistSink (dispatchSink st now t d) (mkEvent st now t d)
            else dispatchSink st now t d },
       mkEvent st now t d) := by
  simp only [logEvent]
  rw [processEventRealTime_eq]
  have h1 : dispatchList { st with events := st.events ++ [mkEvent st now t d] }
      now (mkEvent st now t d).eventType (mkEvent st now t d).data
      = dispatchList st now t d := rfl
  have h2 : dispatchSink { st with events := st.events ++ [mkEvent st now t d] }
      now (mkEvent st now t d).eventType (mkEvent st now t d).data
      = dispatchSink st now t d := rfl
  rw [h1, h2]
  by_cases h : isImportantEvent t = true <;> simp [h, persistEvent]

/-! Projection corollaries: `logEvent` only appends to the event log and
updates the sink. -/

theorem logEvent_spatialData (st : AnalyticsCollector) (now : ℚ) (t : String)
    (d : EventData) : (logEvent st now t d).1.spatialData = st.spatialData := by
  rw [logEvent_eq]

theorem logEvent_performanceMetrics (st : AnalyticsCollector) (now : ℚ)
    (t : String) (d : EventData) :
    (logEvent st now t d).1.performanceMetrics = st.performanceMetrics := by
  rw [logEvent_eq]

theorem logEvent_userInteractions (st : AnalyticsCollector) (now : ℚ)
    (t : String) (d : EventData) :
    (logEvent st now t d).1.userInteractions = st.userInteractions := by
  rw [logEvent_eq]

theorem logEvent_isVRMode (st : AnalyticsCollector) (now : ℚ) (t : String)
    (d : EventData) : (logEvent st now t d).1.isVRMode = st.isVRMode := by
  rw [logEvent_eq]

theorem logEvent_startTime (st : AnalyticsCollector) (now : ℚ) (t : String)
    (d : EventData) : (logEvent st now t d).1.startTime = st.startTime := by
  rw [logEvent_eq]

theorem logEvent_vrSessionStart (st : AnalyticsCollector) (now : ℚ)
    (t : String) (d : EventData) :
    (logEvent st now t d).1.vrSessionStart = st.vrSessionStart := by
  rw [logEvent_eq]

theorem logEvent_events (st : AnalyticsCollector) (now : ℚ) (t : String)
    (d : EventData) :
    (logEvent st now t d).1.events =
      st.events ++ [mkEvent st now t d] ++ dispatchList st now t d := by
  rw [logEvent_eq]

/-- Every event the real-time dispatch emits has one of the four reactive
event types. -/
theorem eventType_mem_dispatchList (st : AnalyticsCollector) (now : ℚ)
    (t : String) (d : EventData) (e : Event)
    (he : e ∈ dispatchList st now t d) :
    e.eventType = "rapid_interaction_detected" ∨
    e.eventType = "performance_warning" ∨
    e.eventType = "vr_experience_start" ∨
    e.eventType = "vr_experience_end" := by
  unfold dispatchList at he
  split at he
  · simp only [rapidList] at he
    split at he
    · split at he
      · rw [List.mem_singleton.mp he]
        left; rfl
      · simp at he
    · simp at he
  · split at he
    · simp only [warningList] at he
      split at he
      · rcases List.mem_append.mp he with h | h
        · split at h
          · rw [List.mem_singleton.mp h]
            right; left; rfl
          · simp at h
        · split at h
          · rw [List.mem_singleton.mp h]
            right; left; rfl
          · simp at h
      · simp at he
    · split at he
      · simp only [vrModeList] at he
        split at he
        · rw [List.mem_singleton.mp he]
          right; right; left; rfl
        · rw [List.mem_singleton.mp he]
          right; right; right; rfl
      · simp at he

theorem countType_append (l₁ l₂ : List Event) (t : String) :
    countType (l₁ ++ l₂) t = countType l₁ t + countType l₂ t := by
  simp [countType, List.filter_append]

theorem countType_nil (t : String) : countType [] t = 0 := rfl

/-- The dispatch never emits events of a type other than its four reactive
types; in particular no `spatial_tracking`, `performance_metrics` or
`vr_session_start` event. -/
theorem countType_dispatchList_eq_zero (st : AnalyticsCollector) (now : ℚ)
    (t : String) (d : EventData) (ty : String)
    (h1 : ty ≠ "rapid_interaction_detected") (h2 : ty ≠ "performance_warning")
    (h3 : ty ≠ "vr_experience_start") (h4 : ty ≠ "vr_experience_end") :
    countType (dispatchList st now t d) ty = 0 := by
  unfold countType
  rw [List.length_eq_zero]
  rw [List.filter_eq_nil_iff]
  intro e he
  rcases eventType_mem_dispatchList st now t d e he with h | h | h | h <;>
    simp [h, h1, h2, h3, h4]
  · exact fun hc => h1 hc.symm
  · exact fun hc => h2 hc.symm
  · exact fun hc => h3 hc.symm
  · exact fun hc => h4 hc.symm

/-! ## The sliding-window behaviour of the two ring buffers -/

/-- One `logSpatialData` call on a within-cap buffer leaves exactly the
last 1800 of the old buffer plus the new (rounded) sample. -/
theorem logSpatialData_sd (st : AnalyticsCollector) (now : ℚ) (p r : Vec3)
    (sc : Option Vec3) (o : String) (h : st.spatialData.length ≤ 1800) :
    (logSpatialData st now p r sc o).spatialData =
      lastN 1800 (st.spatialData ++
        [{ objectType := o, position := roundVec p, rotation := roundVec r,
           scale := sc.map roundVec, timestamp := now }]) := by
  simp only [logSpatialData]
  split <;> rename_i h1 <;> split <;> rename_i h2 <;>
    simp only [logEvent_spatialData, List.length_append, List.length_cons,
      List.length_nil, gt_iff_lt, not_lt] at h2 ⊢
  all_goals
    rw [lastN_of_length_le
      (by simp only [List.length_append, List.length_cons, List.length_nil]; omega)]

theorem logSpatialData_isVRMode (st : AnalyticsCollector) (now : ℚ)
    (p r : Vec3) (sc : Option Vec3) (o : String) :
    (logSpatialData st now p r sc o).isVRMode = st.isVRMode := by
  simp only [logSpatialData]
  split <;> split <;> simp [logEvent_isVRMode]

/-- One `logPerformance` call on a within-cap buffer leaves exactly the
last 1800 of the old buffer plus the new (rounded) sample. -/
theorem logPerformance_pm (st : AnalyticsCollector) (now fps rt : ℚ)
    (mem : Option ℚ) (h : st.performanceMetrics.length ≤ 1800) :
    (logPerformance st now fps rt mem).performanceMetrics =
      lastN 1800 (st.performanceMetrics ++
        [{ fps := round1 fps, renderTime := round2 rt, memoryUsage := mem,
           timestamp := now, isVRMode := st.isVRMode }]) := by
  simp only [logPerformance]
  split <;> rename_i h1 <;> split <;> rename_i h2 <;>
    simp only [logEvent_performanceMetrics, List.length_append, List.length_cons,
      List.length_nil, gt_iff_lt, not_lt] at h2 ⊢
  all_goals
    rw [lastN_of_length_le
      (by simp only [List.length_append, List.length_cons, List.length_nil]; omega)]

theorem logPerformance_isVRMode (st : AnalyticsCollector) (now fps rt : ℚ)
    (mem : Option ℚ) :
    (logPerformance st now fps rt mem).isVRMode = st.isVRMode := by
  simp only [logPerformance]
  split <;> split <;> simp [logEvent_isVRMode]

/-- Fold invariant for `runSpatial`: the spatial buffer is always the last
1800 of everything inserted so far. -/
theorem runSpatial_spatialData (inputs : List SpatialInput) :
    ∀ (st : AnalyticsCollector) (acc : List SpatialSample),
      st.spatialData = lastN 1800 acc →
      (runSpatial st inputs).spatialData =
        lastN 1800 (acc ++ inputs.map mkSpatialSample) := by
  induction inputs with
  | nil =>
    intro st acc h
    simpa [runSpatial] using h
  | cons i rest ih =>
    intro st acc h
    have hlen : st.spatialData.length ≤ 1800 := by
      rw [h, length_lastN]; omega
    have hstep :
        (logSpatialData st i.now i.position i.rotation i.scale i.objectType).spatialData
          = lastN 1800 (acc ++ [mkSpatialSample i]) := by
      rw [logSpatialData_sd st i.now i.position i.rotation i.scale i.objectType hlen,
        h, mkSpatialSample, lastN_append_one_lastN (by norm_num)]
    have := ih _ (acc ++ [mkSpatialSample i]) hstep
    simp only [runSpatial, List.foldl_cons] at this ⊢
    rw [this, List.append_assoc]
    simp

/-- Fold invariant for `runPerf` (the VR flag stays off, so every inserted
sample carries `isVRMode = false`). -/
theorem runPerf_performanceMetrics (inputs : List PerfInput) :
    ∀ (st : AnalyticsCollector) (acc : List PerformanceSample),
      st.performanceMetrics = lastN 1800 acc → st.isVRMode = false →
      (runPerf st inputs).performanceMetrics =
        lastN 1800 (acc ++ inputs.map mkPerfSample) := by
  induction inputs with
  | nil =>
    intro st acc h _
    simpa [runPerf] using h
  | cons i rest ih =>
    intro st acc h hvr
    have hlen : st.performanceMetrics.length ≤ 1800 := by
      rw [h, length_lastN]; omega
    have hstep :
        (logPerformance st i.now i.fps i.renderTime i.memoryUsage).performanceMetrics
          = lastN 1800 (acc ++ [mkPerfSample i]) := by
      rw [logPerformance_pm st i.now i.fps i.renderTime i.memoryUsage hlen,
        h, hvr, mkPerfSample, lastN_append_one_lastN (by norm_num)]
    have hvr' :
        (logPerformance st i.now i.fps i.renderTime i.memoryUsage).isVRMode = false := by
      rw [logPerformance_isVRMode, hvr]
    have := ih _ (acc ++ [mkPerfSample i]) hstep hvr'
    simp only [runPerf, List.foldl_cons] at this ⊢
    rw [this, List.append_assoc]
    simp

/-! ## Counting the periodically emitted events -/

theorem countType_singleton (e : Event) (ty : String) :
    countType [e] ty = if e.eventType = ty then 1 else 0 := by
  by_cases h : e.eventType = ty <;>
    simp [countType, List.filter_cons, beq_iff_eq, h]

/-- Appending one event through `logEvent` adds one event of type `t` and,
for any type the dispatch never emits, nothing else. -/
theorem countType_logEvent (st : AnalyticsCollector) (now : ℚ) (t : String)
    (d : EventData) (ty : String)
    (h1 : ty ≠ "rapid_interaction_detected") (h2 : ty ≠ "performance_warning")
    (h3 : ty ≠ "vr_experience_start") (h4 : ty ≠ "vr_experience_end") :
    countType (logEvent st now t d).1.events ty =
      countType st.events ty + (if t = ty then 1 else 0) := by
  rw [logEvent_events, countType_append, countType_append,
    countType_dispatchList_eq_zero st now t d ty h1 h2 h3 h4,
    countType_singleton]
  rfl

theorem countType_logEvent_spatial (st : AnalyticsCollector) (now : ℚ)
    (d : EventData) :
    countType (logEvent st now "spatial_tracking" d).1.events "spatial_tracking" =
      countType st.events "spatial_tracking" + 1 := by
  rw [countType_logEvent st now _ d "spatial_tracking" (by simp) (by simp)
    (by simp) (by simp)]
  simp

theorem countType_logEvent_perfMetrics (st : AnalyticsCollector) (now : ℚ)
    (d : EventData) :
    countType (logEvent st now "performance_metrics" d).1.events
        "performance_metrics" =
      countType st.events "performance_metrics" + 1 := by
  rw [countType_logEvent st now _ d "performance_metrics" (by simp) (by simp)
    (by simp) (by simp)]
  simp

theorem logSpatialData_count (st : AnalyticsCollector) (now : ℚ) (p r : Vec3)
    (sc : Option Vec3) (o : String) :
    countType (logSpatialData st now p r sc o).events "spatial_tracking" =
      countType st.events "spatial_tracking" +
        (if (st.spatialData.length + 1) % 30 = 0 then 1 else 0) := by
  simp only [logSpatialData]
  split <;> rename_i h1 <;> split <;> rename_i h2 <;>
    simp only [List.length_append, List.length_cons, List.length_nil,
      Nat.zero_add] at h1
  · dsimp only
    rw [countType_logEvent_spatial]
    dsimp only
    simp [h1]
  · rw [countType_logEvent_spatial]
    dsimp only
    simp [h1]
  · dsimp only
    simp [h1]
  · dsimp only
    simp [h1]

theorem logPerformance_count (st : AnalyticsCollector) (now fps rt : ℚ)
    (mem : Option ℚ) :
    countType (logPerformance st now fps rt mem).events "performance_metrics" =
      countType st.events "performance_metrics" +
        (if (st.performanceMetrics.length + 1) % 300 = 0 then 1 else 0) := by
  simp only [logPerformance]
  split <;> rename_i h1 <;> split <;> rename_i h2 <;>
    simp only [List.length_append, List.length_cons, List.length_nil,
      Nat.zero_add] at h1
  · dsimp only
    rw [countType_logEvent_perfMetrics]
    dsimp only
    simp [h1]
  · rw [countType_logEvent_perfMetrics]
    dsimp only
    simp [h1]
  · dsimp only
    simp [h1]
  · dsimp only
    simp [h1]

/-- The arithmetic of "emit when the post-insertion length is divisible by
`d`" under the 1800 cap: once the buffer is full the check always sees
1801 and the counter freezes. -/
theorem min1800_div_step (n d : ℕ) (hd : ¬ d ∣ 1801) :
    min (n + 1) 1800 / d =
      min n 1800 / d + (if (min n 1800 + 1) % d = 0 then 1 else 0) := by
  by_cases h : n < 1800
  · rw [Nat.min_eq_left (by omega), Nat.min_eq_left (by omega), Nat.succ_div]
    congr 1
    simp [Nat.dvd_iff_mod_eq_zero]
  · have h1 : min n 1800 = 1800 := Nat.min_eq_right (by omega)
    have h2 : min (n + 1) 1800 = 1800 := Nat.min_eq_right (by omega)
    rw [h1, h2]
    have h3 : ¬ (1800 + 1) % d = 0 := by
      intro hc
      exact hd (Nat.dvd_of_mod_eq_zero hc)
    simp [h3]

/-- Fold invariant for `runSpatial`: after `n` total insertions there are
`min n 1800 / 30` `spatial_tracking` events in the log. -/
theorem runSpatial_tracking_count (inputs : List SpatialInput) :
    ∀ (st : AnalyticsCollector) (n : ℕ),
      st.spatialData.length = min n 1800 →
      countType st.events "spatial_tracking" = min n 1800 / 30 →
      countType (runSpatial st inputs).events "spatial_tracking"
          = min (n + inputs.length) 1800 / 30 ∧
        (runSpatial st inputs).spatialData.length = min (n + inputs.length) 1800 := by
  induction inputs with
  | nil =>
    intro st n hlen hcount
    simpa [runSpatial] using ⟨hcount, hlen⟩
  | cons i rest ih =>
    intro st n hlen hcount
    have hle : st.spatialData.length ≤ 1800 := by omega
    have hsd :
        (logSpatialData st i.now i.position i.rotation i.scale i.objectType).spatialData.length
          = min (n + 1) 1800 := by
      rw [logSpatialData_sd st i.now i.position i.rotation i.scale i.objectType hle,
        length_lastN]
      simp only [List.length_append, List.length_cons, List.length_nil]
      omega
    have hct :
        countType (logSpatialData st i.now i.position i.rotation i.scale i.objectType).events
            "spatial_tracking" = min (n + 1) 1800 / 30 := by
      rw [logSpatialData_count, hcount, hlen, min1800_div_step n 30 (by decide)]
    have := ih _ (n + 1) hsd hct
    simp only [runSpatial, List.foldl_cons] at this ⊢
    constructor
    · rw [this.1]
      simp only [List.length_cons]
      congr 2
      omega
    · rw [this.2]
      simp only [List.length_cons]
      congr 1
      omega

/-- Fold invariant for `runPerf`: after `n` total insertions there are
`min n 1800 / 300` `performance_metrics` events in the log. -/
theorem runPerf_metrics_count (inputs : List PerfInput) :
    ∀ (st : AnalyticsCollector) (n : ℕ),
      st.performanceMetrics.length = min n 1800 →
      countType st.events "performance_metrics" = min n 1800 / 300 →
      countType (runPerf st inputs).events "performance_metrics"
          = min (n + inputs.length) 1800 / 300 ∧
        (runPerf st inputs).performanceMetrics.length = min (n + inputs.length) 1800 := by
  induction inputs with
  | nil =>
    intro st n hlen hcount
    simpa [runPerf] using ⟨hcount, hlen⟩
  | cons i rest ih =>
    intro st n hlen hcount
    have hle : st.performanceMetrics.length ≤ 1800 := by omega
    have hsd :
        (logPerformance st i.now i.fps i.renderTime i.memoryUsage).performanceMetrics.length
          = min (n + 1) 1800 := by
      rw [logPerformance_pm st i.now i.fps i.renderTime i.memoryUsage hle,
        length_lastN]
      simp only [List.length_append, List.length_cons, List.length_nil]
      omega
    have hct :
        countType (logPerformance st i.now i.fps i.renderTime i.memoryUsage).events
            "performance_metrics" = min (n + 1) 1800 / 300 := by
      rw [logPerformance_count, hcount, hlen, min1800_div_step n 300 (by decide)]
    have := ih _ (n + 1) hsd hct
    simp only [runPerf, List.foldl_cons] at this ⊢
    constructor
    · rw [this.1]
      simp only [List.length_cons]
      congr 2
      omega
    · rw [this.2]
      simp only [List.length_cons]
      congr 1
      omega

/-! ## Claim C1 -/

/-- **C1.**  For every sequence of `logSpatialData` calls, after each call
the spatial buffer is exactly the most recent 1800 inserted (rounded)
samples in insertion order — in particular it never exceeds 1800 samples —
and the same 1800-cap and ordering property holds for the performance
buffer under every sequence of `logPerformance` calls.  (Quantifying over
all input lists covers the state after every call of a sequence.) -/
theorem buffers_keep_last_1800 (sid : String) (t0 : ℚ) (pf : String)
    (sIn : List SpatialInput) (pIn : List PerfInput) :
    (runSpatial (initialState sid t0 pf) sIn).spatialData
        = lastN 1800 (sIn.map mkSpatialSample) ∧
    (runSpatial (initialState sid t0 pf) sIn).spatialData.length ≤ 1800 ∧
    (runPerf (initialState sid t0 pf) pIn).performanceMetrics
        = lastN 1800 (pIn.map mkPerfSample) ∧
    (runPerf (initialState sid t0 pf) pIn).performanceMetrics.length ≤ 1800 := by
  have hs := runSpatial_spatialData sIn (initialState sid t0 pf) []
    (by simp [initialState, lastN])
  have hp := runPerf_performanceMetrics pIn (initialState sid t0 pf) []
    (by simp [initialState, lastN]) (by simp [initialState])
  simp only [List.nil_append] at hs hp
  refine ⟨hs, ?_, hp, ?_⟩
  · rw [hs, length_lastN]
    omega
  · rw [hp, length_lastN]
    omega

/-! ## Claim C2 -/

/-- **C2 (amended).**  After `n` `logSpatialData` calls the log holds
`min n 1800 / 30` `spatial_tracking` events, and after `n` `logPerformance`
calls it holds `min n 1800 / 300` `performance_metrics` events: the n-th
call emits exactly when `n` is a multiple of the cadence **and**
`n ≤ 1800`.  The periodic emission does *not* continue past the buffer
cap: once a buffer is capped at 1800 the length check sees 1801 after each
insertion, which is divisible by neither 30 nor 300, so the periodic
events stop. -/
theorem periodic_emission_caps (sid : String) (t0 : ℚ) (pf : String)
    (sIn : List SpatialInput) (pIn : List PerfInput) :
    countType (runSpatial (initialState sid t0 pf) sIn).events "spatial_tracking"
        = min sIn.length 1800 / 30 ∧
    countType (runPerf (initialState sid t0 pf) pIn).events "performance_metrics"
        = min pIn.length 1800 / 300 := by
  have hs := (runSpatial_tracking_count sIn (initialState sid t0 pf) 0
    (by simp [initialState]) (by simp [initialState, countType])).1
  have hp := (runPerf_metrics_count pIn (initialState sid t0 pf) 0
    (by simp [initialState]) (by simp [initialState, countType])).1
  simp only [Nat.zero_add] at hs hp
  exact ⟨hs, hp⟩

/-- **C2 (counterexample).**  The 1830th `logSpatialData` call — 1830 is a
multiple of 30 — emits no `spatial_tracking` event: the count of such
events after 1830 calls equals the count after 1829 calls (both are 60,
not the 61 that an uninterrupted every-30th cadence would give). -/
theorem periodic_emission_stops_after_cap :
    countType (runSpatial initState (List.replicate 1830 sInp0)).events
        "spatial_tracking"
      = countType (runSpatial initState (List.replicate 1829 sInp0)).events
        "spatial_tracking" ∧
    1830 % 30 = 0 ∧
    countType (runSpatial initState (List.replicate 1830 sInp0)).events
        "spatial_tracking" = 60 := by
  have h30 := (runSpatial_tracking_count (List.replicate 1830 sInp0) initState 0
    (by simp [initState, initialState]) (by simp [initState, initialState, countType])).1
  have h29 := (runSpatial_tracking_count (List.replicate 1829 sInp0) initState 0
    (by simp [initState, initialState]) (by simp [initState, initialState, countType])).1
  simp only [List.length_replicate, Nat.zero_add] at h30 h29
  rw [h30, h29]
  norm_num

/-! ## Claim C3: the rapid-interaction detector -/

theorem updateInteractionMetrics_events (st : AnalyticsCollector)
    (i : Interaction) : (updateInteractionMetrics st i).events = st.events := rfl

theorem updateInteractionMetrics_userInteractions (st : AnalyticsCollector)
    (i : Interaction) :
    (updateInteractionMetrics st i).userInteractions = st.userInteractions := rfl

theorem updateInteractionMetrics_isVRMode (st : AnalyticsCollector)
    (i : Interaction) : (updateInteractionMetrics st i).isVRMode = st.isVRMode :=
  rfl

theorem dispatchList_user (st : AnalyticsCollector) (now : ℚ) (d : EventData) :
    dispatchList st now "user_interaction" d = rapidList st now := by
  simp [dispatchList]

/-- The event-log effect of `logInteraction`: the `user_interaction` event
plus whatever the detector — run over the interactions recorded *before*
this call, since the push happens after the dispatch — emits. -/
theorem logInteraction_events (st : AnalyticsCollector) (now : ℚ)
    (ty tg : String) (p : Option Vec3) (dur f : Option ℚ) :
    (logInteraction st now ty tg p dur f).1.events =
      st.events ++ [mkEvent st now "user_interaction"
        (.interaction ⟨ty, tg, p, dur, f, now, st.isVRMode⟩)] ++
        rapidList st now := by
  simp only [logInteraction]
  rw [updateInteractionMetrics_events]
  dsimp only
  rw [logEvent_events, dispatchList_user]

theorem logInteraction_userInteractions (st : AnalyticsCollector) (now : ℚ)
    (ty tg : String) (p : Option Vec3) (dur f : Option ℚ) :
    (logInteraction st now ty tg p dur f).1.userInteractions =
      st.userInteractions ++ [⟨ty, tg, p, dur, f, now, st.isVRMode⟩] := by
  simp only [logInteraction]
  rw [updateInteractionMetrics_userInteractions]
  dsimp only
  rw [logEvent_userInteractions]

theorem logInteraction_isVRMode (st : AnalyticsCollector) (now : ℚ)
    (ty tg : String) (p : Option Vec3) (dur f : Option ℚ) :
    (logInteraction st now ty tg p dur f).1.isVRMode = st.isVRMode := by
  simp only [logInteraction]
  rw [updateInteractionMetrics_isVRMode]
  dsimp only
  rw [logEvent_isVRMode]

/-- With fewer than 3 previously recorded interactions the detector is
silent. -/
theorem rapidList_short (st : AnalyticsCollector) (now : ℚ)
    (h : st.userInteractions.length < 3) : rapidList st now = [] := by
  have hc : ¬ ((lastN 5 st.userInteractions).length ≥ 3) := by
    rw [length_lastN]
    omega
  unfold rapidList
  rw [if_neg hc]

theorem count_rapid_logInteraction (st : AnalyticsCollector) (now : ℚ)
    (ty tg : String) (p : Option Vec3) (dur f : Option ℚ) :
    countType (logInteraction st now ty tg p dur f).1.events
        "rapid_interaction_detected" =
      countType st.events "rapid_interaction_detected" +
        countType (rapidList st now) "rapid_interaction_detected" := by
  rw [logInteraction_events, countType_append, countType_append,
    countType_singleton]
  simp [mkEvent]

/-- Exactly 3 prior interactions with qualifying mean gap: the detector
emits one event. -/
theorem count_rapidList_three (st : AnalyticsCollector) (now : ℚ)
    (i1 i2 i3 : Interaction) (h : st.userInteractions = [i1, i2, i3])
    (hlt : consecutiveGapSum [i1, i2, i3] /
        ((([i1, i2, i3] : List Interaction).length : ℚ) - 1) < 500) :
    countType (rapidList st now) "rapid_interaction_detected" = 1 := by
  unfold rapidList
  rw [h, lastN_of_length_le (by simp), if_pos (by simp), if_pos hlt,
    countType_singleton]
  rfl

theorem count_step_short (st : AnalyticsCollector) (t : ℚ)
    (h : st.userInteractions.length < 3) :
    countType (logInteraction st t "click" "object" none none none).1.events
        "rapid_interaction_detected" =
      countType st.events "rapid_interaction_detected" := by
  rw [count_rapid_logInteraction, rapidList_short st t h]
  rfl

/-- Three `logInteraction` calls from a fresh collector — at any
timestamps whatsoever — never produce a `rapid_interaction_detected`
event: at each call the detector sees at most 2 prior interactions. -/
theorem three_calls_no_rapid (t1 t2 t3 : ℚ) :
    countType (runInteractions initState [t1, t2, t3]).events
      "rapid_interaction_detected" = 0 := by
  simp only [runInteractions, List.foldl_cons, List.foldl_nil]
  rw [count_step_short _ _ ?h3, count_step_short _ _ ?h2,
    count_step_short _ _ ?h1]
  case h1 => simp [initState, initialState]
  case h2 =>
    rw [logInteraction_userInteractions]
    simp [initState, initialState]
  case h3 =>
    rw [logInteraction_userInteractions, logInteraction_userInteractions]
    simp [initState, initialState]
  rfl

/-- The fourth call of a burst whose first three interactions have mean
gap under 500 ms emits exactly one `rapid_interaction_detected` event. -/
theorem four_calls_one_rapid (t1 t2 t3 t4 : ℚ) (h : (t3 - t1) / 2 < 500) :
    countType (runInteractions initState [t1, t2, t3, t4]).events
      "rapid_interaction_detected" = 1 := by
  simp only [runInteractions, List.foldl_cons, List.foldl_nil]
  have hu3 :
      (logInteraction (logInteraction (logInteraction initState t1 "click"
            "object" none none none).1 t2 "click" "object" none none none).1
          t3 "click" "object" none none none).1.userInteractions =
        [⟨"click", "object", none, none, none, t1, false⟩,
         ⟨"click", "object", none, none, none, t2, false⟩,
         ⟨"click", "object", none, none, none, t3, false⟩] := by
    simp [logInteraction_userInteractions, logInteraction_isVRMode,
      initState, initialState]
  have hgap :
      consecutiveGapSum
        [(⟨"click", "object", none, none, none, t1, false⟩ : Interaction),
         ⟨"click", "object", none, none, none, t2, false⟩,
         ⟨"click", "object", none, none, none, t3, false⟩] = t3 - t1 := by
    simp [consecutiveGapSum]
  have hlt :
      consecutiveGapSum
          [(⟨"click", "object", none, none, none, t1, false⟩ : Interaction),
           ⟨"click", "object", none, none, none, t2, false⟩,
           ⟨"click", "object", none, none, none, t3, false⟩] /
        ((([(⟨"click", "object", none, none, none, t1, false⟩ : Interaction),
            ⟨"click", "object", none, none, none, t2, false⟩,
            ⟨"click", "object", none, none, none, t3, false⟩] :
              List Interaction).length : ℚ) - 1) < 500 := by
    rw [hgap]
    norm_num
    linarith
  rw [count_rapid_logInteraction,
    count_rapidList_three _ _ _ _ _ hu3 hlt,
    count_step_short _ _ ?g3, count_step_short _ _ ?g2,
    count_step_short _ _ ?g1]
  case g1 => simp [initState, initialState]
  case g2 =>
    rw [logInteraction_userInteractions]
    simp [initState, initialState]
  case g3 =>
    rw [logInteraction_userInteractions, logInteraction_userInteractions]
    simp [initState, initialState]
  rfl

/-- **C3 (counterexample).**  Three interactions logged at timestamps 0,
100 and 200 — pairwise within 500 ms — produce *zero*
`rapid_interaction_detected` events, not the exactly-one the claim
requires: the detector runs before the new interaction is recorded, so at
the third call it sees only 2 prior interactions. -/
theorem three_rapid_interactions_emit_nothing :
    countType (runInteractions initState [0, 100, 200]).events
        "rapid_interaction_detected" = 0 ∧
    (100 : ℚ) - 0 < 500 ∧ (200 : ℚ) - 100 < 500 ∧ (200 : ℚ) - 0 < 500 :=
  ⟨three_calls_no_rapid 0 100 200, by norm_num, by norm_num, by norm_num⟩

/-- **C3 (amended).**  At each `logInteraction` call the detector inspects
the last 5 interactions recorded *before* the call (the new interaction is
pushed only after the event dispatch) and fires when at least 3 exist with
mean consecutive gap under 500 ms.  Hence a burst of 3 interactions within
500 ms emits no `rapid_interaction_detected` event, and the 4th call of a
qualifying burst emits exactly one. -/
theorem rapid_detection_uses_prior_window (st : AnalyticsCollector)
    (now : ℚ) (ty tg : String) (p : Option Vec3) (dur f : Option ℚ)
    (t1 t2 t3 t4 : ℚ) (h4 : (t3 - t1) / 2 < 500) :
    (logInteraction st now ty tg p dur f).1.events =
      st.events ++ [mkEvent st now "user_interaction"
        (.interaction ⟨ty, tg, p, dur, f, now, st.isVRMode⟩)] ++
        rapidList st now ∧
    countType (runInteractions initState [t1, t2, t3]).events
      "rapid_interaction_detected" = 0 ∧
    countType (runInteractions initState [t1, t2, t3, t4]).events
      "rapid_interaction_detected" = 1 :=
  ⟨logInteraction_events st now ty tg p dur f,
   three_calls_no_rapid t1 t2 t3,
   four_calls_one_rapid t1 t2 t3 t4 h4⟩

/-- Witness for C3: concrete timestamps 0, 100, 200, 300. -/
theorem rapid_detection_uses_prior_window_witness :
    ((200 : ℚ) - 0) / 2 < 500 ∧
    countType (runInteractions initState [0, 100, 200, 300]).events
      "rapid_interaction_detected" = 1 :=
  ⟨by norm_num,
   (rapid_detection_uses_prior_window initState 0 "click" "object" none none
      none 0 100 200 300 (by norm_num)).2.2⟩

/-! ## Claims C4 and C5: the engagement score -/

/-- **C4.**  For every collector state queried at a time `now` not before
the session start, `calculateEngagementScore` equals
`round(min(durationSeconds/300,1)·30 + min(totalInteractions/50,1)·30 +
(25 if a VR session ever started else 0) + (15 if avg fps > 45, 10 if
> 30, else 5))`, and the result always lies between 5 and 100. -/
theorem engagement_score_formula (st : AnalyticsCollector) (now : ℚ)
    (h : st.startTime ≤ now) :
    calculateEngagementScore st now =
      jsRound (min ((now - st.startTime) / 1000 / 300) 1 * 30 +
        min ((st.userInteractions.length : ℚ) / 50) 1 * 30 +
        (if st.events.any (fun e => e.eventType == "vr_session_start")
          then (25 : ℚ) else 0) +
        (if calculateAverageFPS st > 45 then (15 : ℚ)
         else if calculateAverageFPS st > 30 then 10 else 5)) ∧
    5 ≤ calculateEngagementScore st now ∧
    calculateEngagementScore st now ≤ 100 := by
  have hsum_eq : calculateEngagementScore st now =
      jsRound (min ((now - st.startTime) / 1000 / 300) 1 * 30 +
        min ((st.userInteractions.length : ℚ) / 50) 1 * 30 +
        (if st.events.any (fun e => e.eventType == "vr_session_start")
          then (25 : ℚ) else 0) +
        (if calculateAverageFPS st > 45 then (15 : ℚ)
         else if calculateAverageFPS st > 30 then 10 else 5)) := by
    simp only [calculateEngagementScore, getSessionSummary]
  have hd : (0 : ℚ) ≤ (now - st.startTime) / 1000 / 300 := by
    have h0 : (0 : ℚ) ≤ now - st.startTime := sub_nonneg.mpr h
    positivity
  have hD0 : (0 : ℚ) ≤ min ((now - st.startTime) / 1000 / 300) 1 * 30 :=
    mul_nonneg (le_min hd zero_le_one) (by norm_num)
  have hD1 : min ((now - st.startTime) / 1000 / 300) 1 * 30 ≤ 30 := by
    have := min_le_right ((now - st.startTime) / 1000 / 300) (1 : ℚ)
    linarith
  have hi : (0 : ℚ) ≤ (st.userInteractions.length : ℚ) / 50 := by positivity
  have hI0 : (0 : ℚ) ≤ min ((st.userInteractions.length : ℚ) / 50) 1 * 30 :=
    mul_nonneg (le_min hi zero_le_one) (by norm_num)
  have hI1 : min ((st.userInteractions.length : ℚ) / 50) 1 * 30 ≤ 30 := by
    have := min_le_right ((st.userInteractions.length : ℚ) / 50) (1 : ℚ)
    linarith
  have hV0 : (0 : ℚ) ≤
      (if st.events.any (fun e => e.eventType == "vr_session_start")
        then (25 : ℚ) else 0) := by
    split <;> norm_num
  have hV1 :
      (if st.events.any (fun e => e.eventType == "vr_session_start")
        then (25 : ℚ) else 0) ≤ 25 := by
    split <;> norm_num
  have hP0 : (5 : ℚ) ≤
      (if calculateAverageFPS st > 45 then (15 : ℚ)
       else if calculateAverageFPS st > 30 then 10 else 5) := by
    split
    · norm_num
    · split <;> norm_num
  have hP1 :
      (if calculateAverageFPS st > 45 then (15 : ℚ)
       else if calculateAverageFPS st > 30 then 10 else 5) ≤ 15 := by
    split
    · norm_num
    · split <;> norm_num
  refine ⟨hsum_eq, ?_, ?_⟩
  · rw [hsum_eq]
    unfold jsRound
    rw [Int.le_floor]
    push_cast
    linarith
  · rw [hsum_eq]
    unfold jsRound
    have hlt : (⌊min ((now - st.startTime) / 1000 / 300) 1 * 30 +
        min ((st.userInteractions.length : ℚ) / 50) 1 * 30 +
        (if st.events.any (fun e => e.eventType == "vr_session_start")
          then (25 : ℚ) else 0) +
        (if calculateAverageFPS st > 45 then (15 : ℚ)
         else if calculateAverageFPS st > 30 then 10 else 5) + 1/2⌋ : ℤ) < 101 := by
      rw [Int.floor_lt]
      push_cast
      linarith
    omega

/-- Witness for C4 at the fresh collector queried at time 0. -/
theorem engagement_score_formula_witness :
    initState.startTime ≤ (0 : ℚ) ∧ 5 ≤ calculateEngagementScore initState 0 :=
  ⟨by norm_num [initState, initialState],
   (engagement_score_formula initState 0
      (by norm_num [initState, initialState])).2.1⟩

/-- **C5.**  A fresh session scores 5 (the performance floor), and a
session with at least 300 s duration, at least 50 interactions, a VR
session start and average fps above 45 scores 100. -/
theorem engagement_score_extremes (st : AnalyticsCollector) (now : ℚ)
    (hdur : 300 ≤ (now - st.startTime) / 1000)
    (hint : 50 ≤ st.userInteractions.length)
    (hvr : st.events.any (fun e => e.eventType == "vr_session_start") = true)
    (hfps : calculateAverageFPS st > 45) :
    calculateEngagementScore initState 0 = 5 ∧
    calculateEngagementScore st now = 100 := by
  constructor
  · norm_num [calculateEngagementScore, getSessionSummary, calculateAverageFPS,
      initState, initialState, jsRound]
  · have h1 : min ((now - st.startTime) / 1000 / 300) (1 : ℚ) = 1 :=
      min_eq_right (by rw [le_div_iff₀ (by norm_num : (0:ℚ) < 300)]; linarith)
    have hcast : (50 : ℚ) ≤ (st.userInteractions.length : ℚ) := by
      exact_mod_cast hint
    have h2 : min ((st.userInteractions.length : ℚ) / 50) (1 : ℚ) = 1 :=
      min_eq_right (by rw [le_div_iff₀ (by norm_num : (0:ℚ) < 50)]; linarith)
    simp only [calculateEngagementScore, getSessionSummary, h1, h2, hvr,
      if_true, hfps]
    norm_num [jsRound]

/-- Witness for C5: the maximally engaged concrete session queried at
`now = 300000` ms. -/
theorem engagement_score_extremes_witness :
    300 ≤ ((300000 : ℚ) - stEngaged.startTime) / 1000 ∧
    50 ≤ stEngaged.userInteractions.length ∧
    stEngaged.events.any (fun e => e.eventType == "vr_session_start") = true ∧
    calculateAverageFPS stEngaged > 45 ∧
    calculateEngagementScore stEngaged 300000 = 100 :=
  ⟨by norm_num [stEngaged, initState, initialState],
   by simp [stEngaged, initState, initialState],
   by decide,
   by norm_num [calculateAverageFPS, stEngaged, initState, initialState,
     lastN, round1, jsRound, perfSampleAt],
   (engagement_score_extremes stEngaged 300000
      (by norm_num [stEngaged, initState, initialState])
      (by simp [stEngaged, initState, initialState])
      (by decide)
      (by norm_num [calculateAverageFPS, stEngaged, initState, initialState,
        lastN, round1, jsRound, perfSampleAt])).2⟩

/-! ## Claim C6: the performance trend -/

theorem lastN_append_right (l₁ l₂ : List α) (h : l₂.length = n) :
    lastN n (l₁ ++ l₂) = l₂ := by
  unfold lastN
  rw [List.length_append, h, show l₁.length + n - n = l₁.length by omega]
  exact List.drop_left l₁ l₂

theorem take_append_left (l₁ l₂ : List α) (h : l₁.length = n) :
    (l₁ ++ l₂).take n = l₁ := by
  rw [← h]
  exact List.take_left l₁ l₂

theorem sum_map_fps_replicate (n : ℕ) (x : PerformanceSample) :
    ((List.replicate n x).map PerformanceSample.fps).sum = n * x.fps := by
  simp [List.map_replicate, List.sum_replicate, nsmul_eq_mul]

/-- **C6.**  `getPerformanceTrend` returns `"insufficient_data"` below 120
samples; with at least 120 samples it compares the mean fps of the last 60
samples against the preceding 60 and classifies the percentage change
against ±5 (stated for a nonzero older mean, where the percentage change
is well defined); 60 samples at fps 50 followed by 60 at fps 56 yield
`"improving"`, and the reverse yields `"degrading"`. -/
theorem performance_trend_spec (st : AnalyticsCollector) :
    (st.performanceMetrics.length < 120 →
      getPerformanceTrend st = "insufficient_data") ∧
    (120 ≤ st.performanceMetrics.length →
      ∀ recentAvg olderAvg : ℚ,
        recentAvg =
          ((lastN 60 st.performanceMetrics).map PerformanceSample.fps).sum /
            ((lastN 60 st.performanceMetrics).length : ℚ) →
        olderAvg =
          (((lastN 120 st.performanceMetrics).take 60).map
              PerformanceSample.fps).sum /
            (((lastN 120 st.performanceMetrics).take 60).length : ℚ) →
        olderAvg ≠ 0 →
        getPerformanceTrend st =
          if ((recentAvg - olderAvg) / olderAvg) * 100 > 5 then "improving"
          else if ((recentAvg - olderAvg) / olderAvg) * 100 < -5 then
            "degrading"
          else "stable") ∧
    getPerformanceTrend stTrendUp = "improving" ∧
    getPerformanceTrend stTrendDown = "degrading" := by
  refine ⟨?_, ?_, ?_, ?_⟩
  · intro h
    unfold getPerformanceTrend
    rw [if_pos h]
  · intro h recentAvg olderAvg hr ho _
    unfold getPerformanceTrend
    rw [if_neg (by omega)]
    dsimp only
    rw [← hr, ← ho]
  · have e1 : stTrendUp.performanceMetrics =
        List.replicate 60 (perfSampleAt 50) ++ List.replicate 60 (perfSampleAt 56) := rfl
    have hlen : stTrendUp.performanceMetrics.length = 120 := by
      rw [e1]; simp
    have hrecent : lastN 60 stTrendUp.performanceMetrics =
        List.replicate 60 (perfSampleAt 56) := by
      rw [e1, lastN_append_right _ _ (by simp)]
    have holder : (lastN 120 stTrendUp.performanceMetrics).take 60 =
        List.replicate 60 (perfSampleAt 50) := by
      rw [e1, lastN_of_length_le (by simp), take_append_left _ _ (by simp)]
    unfold getPerformanceTrend
    rw [if_neg (by omega), hrecent, holder]
    norm_num [sum_map_fps_replicate, perfSampleAt]
  · have e1 : stTrendDown.performanceMetrics =
        List.replicate 60 (perfSampleAt 56) ++ List.replicate 60 (perfSampleAt 50) := rfl
    have hlen : stTrendDown.performanceMetrics.length = 120 := by
      rw [e1]; simp
    have hrecent : lastN 60 stTrendDown.performanceMetrics =
        List.replicate 60 (perfSampleAt 50) := by
      rw [e1, lastN_append_right _ _ (by simp)]
    have holder : (lastN 120 stTrendDown.performanceMetrics).take 60 =
        List.replicate 60 (perfSampleAt 56) := by
      rw [e1, lastN_of_length_le (by simp), take_append_left _ _ (by simp)]
    unfold getPerformanceTrend
    rw [if_neg (by omega), hrecent, holder]
    norm_num [sum_map_fps_replicate, perfSampleAt]

/-- Witness for C6: the fresh collector has fewer than 120 samples and
reports `"insufficient_data"`. -/
theorem performance_trend_spec_witness :
    initState.performanceMetrics.length < 120 ∧
    getPerformanceTrend initState = "insufficient_data" :=
  ⟨by simp [initState, initialState],
   (performance_trend_spec initState).1 (by simp [initState, initialState])⟩

/-! ## Claim C7: movement metrics -/

theorem movementAgg_two_samples :
    movementAgg [spatialAt 0 0, spatialAt 1 1000] = (1, 1) := by
  have hd : dist3 (spatialAt 0 0).position (spatialAt 1 1000).position = 1 := by
    unfold dist3 spatialAt
    norm_num
  have htail : movementAgg [spatialAt 1 1000] = (0, 0) := rfl
  rw [movementAgg, htail, hd]
  unfold spatialAt
  norm_num

theorem movement_two_samples_eval :
    calculateMovementMetrics stTwoSamples =
      some { totalDistance := 1, averageVelocity := 1, maxVelocity := 1
             movementIntensity := "active" } := by
  unfold calculateMovementMetrics
  rw [if_neg (by simp [stTwoSamples, initState, initialState])]
  have hrec : lastN 30 stTwoSamples.spatialData =
      [spatialAt 0 0, spatialAt 1 1000] := by
    apply lastN_of_length_le
    simp [stTwoSamples, initState, initialState]
  rw [hrec]
  dsimp only
  rw [movementAgg_two_samples]
  have h1 : round3R 1 = 1 := by
    unfold round3R jsRoundR
    norm_num
  have hclass : classifyMovementIntensity 1 = "active" := by
    unfold classifyMovementIntensity
    rw [if_neg (by norm_num), if_neg (by norm_num), if_neg (by norm_num),
      if_pos (by norm_num)]
  simp only [List.length_cons, List.length_nil]
  norm_num [h1, hclass]

/-- **C7 (counterexample).**  On two spatial samples 1 meter apart and
1 second apart the peak per-step velocity is exactly 1.0 m/s, and
`classifyMovementIntensity` classifies 1.0 as `"active"` (the `"moderate"`
bucket requires velocity strictly below 1.0), not `"moderate"` as the
claim's worked example states. -/
theorem movement_intensity_at_one_is_active :
    (calculateMovementMetrics stTwoSamples).map MovementMetrics.movementIntensity
        = some "active" ∧
    ("active" : String) ≠ "moderate" := by
  constructor
  · rw [movement_two_samples_eval]
    rfl
  · decide

/-- **C7 (amended).**  `calculateMovementMetrics` returns null below 2
spatial samples; intensity is classified from the raw peak velocity with
buckets `stationary (<0.1)`, `slow (<0.5)`, `moderate (<1.0)`,
`active (<2.0)`, else `rapid`; and on two samples 1 meter apart across 1
second it reports total distance 1.0, average velocity 1.0, max velocity
1.0 and — the velocity being exactly 1.0, on the `active` side of the
`moderate` boundary — intensity `"active"`. -/
theorem movement_metrics_spec (st : AnalyticsCollector) (v : ℝ) :
    (st.spatialData.length < 2 → calculateMovementMetrics st = none) ∧
    (v < 0.1 → classifyMovementIntensity v = "stationary") ∧
    (0.1 ≤ v → v < 0.5 → classifyMovementIntensity v = "slow") ∧
    (0.5 ≤ v → v < 1.0 → classifyMovementIntensity v = "moderate") ∧
    (1.0 ≤ v → v < 2.0 → classifyMovementIntensity v = "active") ∧
    (2.0 ≤ v → classifyMovementIntensity v = "rapid") ∧
    calculateMovementMetrics stTwoSamples =
      some { totalDistance := 1, averageVelocity := 1, maxVelocity := 1
             movementIntensity := "active" } := by
  refine ⟨?_, ?_, ?_, ?_, ?_, ?_, movement_two_samples_eval⟩
  · intro h
    unfold calculateMovementMetrics
    rw [if_pos h]
  · intro h
    unfold classifyMovementIntensity
    rw [if_pos h]
  · intro h1 h2
    unfold classifyMovementIntensity
    rw [if_neg (not_lt.mpr h1), if_pos h2]
  · intro h1 h2
    unfold classifyMovementIntensity
    rw [if_neg (not_lt.mpr (by linarith : (0.1:ℝ) ≤ v)),
      if_neg (not_lt.mpr h1), if_pos h2]
  · intro h1 h2
    unfold classifyMovementIntensity
    rw [if_neg (not_lt.mpr (by linarith : (0.1:ℝ) ≤ v)),
      if_neg (not_lt.mpr (by linarith : (0.5:ℝ) ≤ v)),
      if_neg (not_lt.mpr h1), if_pos h2]
  · intro h1
    unfold classifyMovementIntensity
    rw [if_neg (not_lt.mpr (by linarith : (0.1:ℝ) ≤ v)),
      if_neg (not_lt.mpr (by linarith : (0.5:ℝ) ≤ v)),
      if_neg (not_lt.mpr (by linarith : (1.0:ℝ) ≤ v)),
      if_neg (not_lt.mpr (by linarith : (2.0:ℝ) ≤ v))]

/-- Witness for C7: the fresh collector (0 spatial samples) yields null,
and velocity 0.05 classifies as stationary. -/
theorem movement_metrics_spec_witness :
    initState.spatialData.length < 2 ∧
    calculateMovementMetrics initState = none ∧
    (0.05 : ℝ) < 0.1 ∧
    classifyMovementIntensity 0.05 = "stationary" :=
  ⟨by simp [initState, initialState],
   (movement_metrics_spec initState 0.05).1 (by simp [initState, initialState]),
   by norm_num,
   (movement_metrics_spec initState 0.05).2.1 (by norm_num)⟩

/-! ## Claim C8: the VR-start timestamp -/

theorem setVRMode_vrSessionStart (st : AnalyticsCollector) (now : ℚ)
    (b : Bool) :
    (setVRMode st now b).vrSessionStart =
      if b && !(qTruthy st.vrSessionStart) then some now
      else st.vrSessionStart := by
  simp only [setVRMode, logEvent_vrSessionStart]
  split <;> simp [logEvent_vrSessionStart]

/-- **C8 (counterexample).**  When the first `setVRMode(true)` happens at
`performance.now() = 0`, the stored VR-start timestamp is 0, which is
falsy in JavaScript, so a second `setVRMode(true)` *re-stamps* it: the
stored timestamp changes from `some 0` to `some 5`. -/
theorem vr_start_restamped_at_zero :
    (setVRMode initState 0 true).vrSessionStart = some 0 ∧
    (setVRMode (setVRMode initState 0 true) 5 true).vrSessionStart = some 5 ∧
    (some (5 : ℚ)) ≠ some 0 := by
  have h1 : (setVRMode initState 0 true).vrSessionStart = some 0 := by
    rw [setVRMode_vrSessionStart]
    simp [qTruthy, initState, initialState]
  refine ⟨h1, ?_, by norm_num⟩
  rw [setVRMode_vrSessionStart, h1]
  simp [qTruthy]

/-- **C8 (amended).**  The VR-start timestamp is stamped on the first
transition into VR, and — provided the stored stamp is truthy, i.e.
nonzero — no later `setVRMode` call changes it; in particular
`setVRMode(true)` twice in a row leaves the stamp unchanged whenever the
first call's timestamp is nonzero.  (The JavaScript falsiness check
`!this.sessionData.vrSessionStart` re-stamps a stored 0.) -/
theorem vr_start_stamped_once (st : AnalyticsCollector) (now now' : ℚ)
    (b : Bool) :
    (qTruthy st.vrSessionStart = true →
      (setVRMode st now b).vrSessionStart = st.vrSessionStart) ∧
    (st.vrSessionStart = none →
      (setVRMode st now true).vrSessionStart = some now) ∧
    (st.vrSessionStart = none → now ≠ 0 →
      (setVRMode (setVRMode st now true) now' true).vrSessionStart =
        (setVRMode st now true).vrSessionStart) := by
  refine ⟨?_, ?_, ?_⟩
  · intro h
    rw [setVRMode_vrSessionStart, h]
    simp
  · intro h
    rw [setVRMode_vrSessionStart, h]
    simp [qTruthy]
  · intro h hnow
    have hfirst : (setVRMode st now true).vrSessionStart = some now := by
      rw [setVRMode_vrSessionStart, h]
      simp [qTruthy]
    rw [setVRMode_vrSessionStart, hfirst]
    simp [qTruthy, bne, hnow]

/-- Witness for C8: a collector stamped at the nonzero time 7 keeps its
stamp through another `setVRMode(true)`. -/
theorem vr_start_stamped_once_witness :
    qTruthy stVrStamped.vrSessionStart = true ∧
    (setVRMode stVrStamped 9 true).vrSessionStart = stVrStamped.vrSessionStart :=
  ⟨by simp [stVrStamped, qTruthy],
   (vr_start_stamped_once stVrStamped 9 0 true).1
     (by simp [stVrStamped, qTruthy])⟩

/-! ## Claim C9: sink failures are swallowed -/

theorem mkEvent_sink_irrel (st : AnalyticsCollector) (s : SinkState)
    (now : ℚ) (t : String) (d : EventData) :
    mkEvent { st with sink := s } now t d = mkEvent st now t d := rfl

theorem dispatchList_sink_irrel (st : AnalyticsCollector) (s : SinkState)
    (now : ℚ) (t : String) (d : EventData) :
    dispatchList { st with sink := s } now t d = dispatchList st now t d := rfl

theorem persistSink_failing (σ : List Event) (e : Event) :
    persistSink ⟨σ, true⟩ e = ⟨σ, true⟩ := by
  simp [persistSink, persistEventExcept]

theorem foldl_persistSink_failing (l : List Event) (σ : List Event) :
    l.foldl persistSink ⟨σ, true⟩ = ⟨σ, true⟩ := by
  induction l with
  | nil => rfl
  | cons e rest ih =>
    simp [List.foldl_cons, persistSink_failing, ih]

theorem dispatchSink_failing (st : AnalyticsCollector) (σ : List Event)
    (now : ℚ) (t : String) (d : EventData) :
    dispatchSink { st with sink := ⟨σ, true⟩ } now t d = ⟨σ, true⟩ := by
  unfold dispatchSink
  split
  · exact foldl_persistSink_failing _ σ
  · rfl

/-- **C9.**  `logEvent` never propagates a sink error: for an important
event type, when every storage operation of the sink throws, `logEvent`
still returns the constructed event, still appends it to the in-memory
event log, leaves the durable store untouched, and leaves every part of
the collector state other than the sink exactly as it would be had
persistence succeeded. -/
theorem logEvent_swallows_sink_failure (st : AnalyticsCollector)
    (σ : List Event) (now : ℚ) (t : String) (d : EventData)
    (h : isImportantEvent t = true) :
    (logEvent { st with sink := ⟨σ, true⟩ } now t d).2 = mkEvent st now t d ∧
    mkEvent st now t d ∈ (logEvent { st with sink := ⟨σ, true⟩ } now t d).1.events ∧
    (logEvent { st with sink := ⟨σ, true⟩ } now t d).1.sink = ⟨σ, true⟩ ∧
    { (logEvent { st with sink := ⟨σ, true⟩ } now t d).1 with
        sink := (⟨σ, false⟩ : SinkState) } =
      { (logEvent { st with sink := ⟨σ, false⟩ } now t d).1 with
        sink := (⟨σ, false⟩ : SinkState) } := by
  refine ⟨?_, ?_, ?_, ?_⟩
  · rw [logEvent_eq]
    rfl
  · rw [logEvent_eq]
    simp only [List.append_assoc, List.mem_append, List.mem_singleton]
    exact Or.inr (Or.inl rfl)
  · rw [logEvent_eq]
    simp only [h, if_true]
    rw [dispatchSink_failing, persistSink_failing]
  · rw [logEvent_eq, logEvent_eq]
    congr 1

/-- Witness for C9: the important type `"error"` logged on a fresh
collector with a failing sink. -/
theorem logEvent_swallows_sink_failure_witness :
    isImportantEvent "error" = true ∧
    (logEvent { initState with sink := ⟨[], true⟩ } 0 "error" (.external [])).2
      = mkEvent initState 0 "error" (.external []) :=
  ⟨by decide,
   (logEvent_swallows_sink_failure initState [] 0 "error" (.external [])
      (by decide)).1⟩

/-! ## Claim C10: `vrModeUsed` and `vr_session_start` -/

theorem any_vr_dispatchList (st : AnalyticsCollector) (now : ℚ) (t : String)
    (d : EventData) :
    (dispatchList st now t d).any
      (fun e => e.eventType == "vr_session_start") = false := by
  rw [List.any_eq_false]
  intro e he
  rcases eventType_mem_dispatchList st now t d e he with h | h | h | h <;>
    simp [h]

theorem any_vr_logEvent (st : AnalyticsCollector) (now : ℚ) (t : String)
    (d : EventData) (ht : ¬ t = "vr_session_start")
    (h : st.events.any (fun e => e.eventType == "vr_session_start") = false) :
    (logEvent st now t d).1.events.any
      (fun e => e.eventType == "vr_session_start") = false := by
  rw [logEvent_events]
  simp [List.any_append, h, any_vr_dispatchList, mkEvent, ht]

theorem any_vr_applyOp (st : AnalyticsCollector) (op : Op)
    (h : st.events.any (fun e => e.eventType == "vr_session_start") = false) :
    (applyOp st op).events.any
      (fun e => e.eventType == "vr_session_start") = false := by
  cases op with
  | interaction now ty tg p dur f =>
    show (logInteraction st now ty tg p dur f).1.events.any
      (fun e => e.eventType == "vr_session_start") = false
    rw [logInteraction_events]
    have hd := any_vr_dispatchList st now "user_interaction" (.external [])
    rw [dispatchList_user] at hd
    simp [List.any_append, h, mkEvent, hd]
  | spatial now p r sc o =>
    show (logSpatialData st now p r sc o).events.any
      (fun e => e.eventType == "vr_session_start") = false
    simp only [logSpatialData]
    split
    · split
      · exact any_vr_logEvent _ now _ _ (by simp) h
      · exact any_vr_logEvent _ now _ _ (by simp) h
    · split
      · exact h
      · exact h
  | perf now f r m =>
    show (logPerformance st now f r m).events.any
      (fun e => e.eventType == "vr_session_start") = false
    simp only [logPerformance]
    split
    · split
      · exact any_vr_logEvent _ now _ _ (by simp) h
      · exact any_vr_logEvent _ now _ _ (by simp) h
    · split
      · exact h
      · exact h
  | vrMode now b =>
    show (setVRMode st now b).events.any
      (fun e => e.eventType == "vr_session_start") = false
    simp only [setVRMode]
    split
    · exact any_vr_logEvent _ now _ _ (by simp) h
    · exact any_vr_logEvent _ now _ _ (by simp) h

theorem any_vr_runOps (ops : List Op) :
    ∀ st : AnalyticsCollector,
      st.events.any (fun e => e.eventType == "vr_session_start") = false →
      (runOps st ops).events.any
        (fun e => e.eventType == "vr_session_start") = false := by
  induction ops with
  | nil =>
    intro st h
    simpa [runOps] using h
  | cons op rest ih =>
    intro st h
    simp only [runOps, List.foldl_cons] at ih ⊢
    exact ih _ (any_vr_applyOp st op h)

/-- **C10.**  `getSessionSummary`'s `vrModeUsed` flag is exactly "some
logged event has type `vr_session_start`".  None of the collector's own
operations — `setVRMode` (which emits `vr_mode_change` and, reactively,
`vr_experience_start`), `logInteraction`, `logSpatialData`,
`logPerformance` — ever logs that type, so under every sequence of those
calls `vrModeUsed` stays false; it becomes true exactly when an external
caller logs a `"vr_session_start"` event. -/
theorem vr_mode_used_requires_external_event (sid : String) (t0 : ℚ)
    (pf : String) (ops : List Op) (q : ℚ) (st : AnalyticsCollector)
    (now now' : ℚ) (d : EventData) :
    (getSessionSummary (runOps (initialState sid t0 pf) ops) q).vrModeUsed
        = false ∧
    (getSessionSummary (logEvent st now "vr_session_start" d).1 now').vrModeUsed
        = true := by
  constructor
  · show (runOps (initialState sid t0 pf) ops).events.any
      (fun e => e.eventType == "vr_session_start") = false
    exact any_vr_runOps ops _ (by simp [initialState])
  · show (logEvent st now "vr_session_start" d).1.events.any
      (fun e => e.eventType == "vr_session_start") = true
    rw [logEvent_events]
    simp [List.any_append, mkEvent]

end AnalyticsCollector
